import Mathlib

/-!
# Verification of the library-loan system (`src/app.py`)

Shallow embedding of the SOLID-principles library example. Mutable Python
objects are modelled as values in explicit state: books live in a heap
(`List Libro`, referenced by index), loans live in the manager's list
(`List Prestamo`, referenced by index). Borrowers (`Usuario`) are immutable
and stored by value. Timestamps are integer second counts (`Int`); one day
is 86400 seconds, matching `timedelta(days=14)` and the whole-day truncation
of `timedelta.days`. Each call to `datetime.now()` in the source is modelled
as an explicit timestamp argument supplied by the environment; in particular
`Prestamo.__init__` reads the clock twice (lines 31 and 32 of the source),
so its embedding takes two timestamps. Console printing is I/O and carries
no state; the reported outcome of `devolver_libro` (already returned /
on time / overdue with fine) is captured in an explicit result value.
-/

namespace App

/-- One day in seconds: the unit of `timedelta(days := n)`. -/
def secondsPerDay : Int := 86400

/-- `class Libro` (src/app.py lines 12-18): title, author, isbn, and the
mutable availability flag, set `True` by the constructor. -/
structure Libro where
  titulo : String
  autor : String
  isbn : String
  disponible : Bool
deriving Repr, DecidableEq, Inhabited

/-- `Libro.__init__`: `disponible` starts `True`. -/
def Libro.init (titulo autor isbn : String) : Libro :=
  { titulo := titulo, autor := autor, isbn := isbn, disponible := true }

/-- `class Usuario` (lines 20-24): immutable after creation. -/
structure Usuario where
  nombre : String
  id_usuario : String
deriving Repr, DecidableEq, Inhabited

/-- `class Prestamo` (lines 26-33). `libro` is a reference to a mutable
`Libro`, modelled as an index into the book heap; `usuario` is immutable and
stored by value. -/
structure Prestamo where
  libroId : Nat
  usuario : Usuario
  fecha_prestamo : Int
  fecha_devolucion : Int
  devuelto : Bool
deriving Repr, DecidableEq, Inhabited

/-- `Prestamo.__init__` (lines 28-33). The constructor calls
`datetime.now()` twice: `now1` is the reading stored in `fecha_prestamo`
(line 31), `now2` the reading used for `fecha_devolucion` (line 32). -/
def Prestamo.init (libroId : Nat) (usuario : Usuario) (now1 now2 : Int) :
    Prestamo :=
  { libroId := libroId, usuario := usuario,
    fecha_prestamo := now1,
    fecha_devolucion := now2 + 14 * secondsPerDay,
    devuelto := false }

/-- The fine-policy hierarchy `CalculadoraMulta` and its three concrete
subclasses (lines 40-59). -/
inductive CalculadoraMulta where
  | multaEstandar
  | multaEstudiante
  | multaVIP
deriving Repr, DecidableEq, Inhabited

/-- The `calcular` methods of `MultaEstandar` (line 48), `MultaEstudiante`
(line 53) and `MultaVIP` (line 58). -/
def CalculadoraMulta.calcular : CalculadoraMulta → Int → Int
  | .multaEstandar, dias_retraso => dias_retraso * 10
  | .multaEstudiante, dias_retraso => dias_retraso * 5
  | .multaVIP, _ => 0

/-- The notification hierarchy `Notificador` with its two subclasses
(lines 66-82). -/
inductive Notificador where
  | notificadorEmail
  | notificadorSMS
deriving Repr, DecidableEq, Inhabited

/-- `enviar` (lines 74-76 and 80-82): both variants print the message (I/O,
no state) and return `True` unconditionally. -/
def Notificador.enviar : Notificador → String → String → Bool
  | _, _, _ => true

/-- `class GestorPrestamos` (lines 112-117): the injected fine policy and
notification channel, and the loan list (initially empty). -/
structure GestorPrestamos where
  calculadora_multa : CalculadoraMulta
  notificador : Notificador
  prestamos : List Prestamo
deriving Repr, DecidableEq, Inhabited

/-- The state acted on by the manager: the heap of books (created by the
caller, mutated through references held by loans) plus the manager. -/
structure LibState where
  books : List Libro
  gestor : GestorPrestamos
deriving Repr, DecidableEq, Inhabited

/-- The book a reference (heap index) points to. -/
def libroAt (s : LibState) (i : Nat) : Libro :=
  s.books.getD i default

/-- The loan a reference (index into the manager's list) points to. -/
def prestamoAt (s : LibState) (i : Nat) : Prestamo :=
  s.gestor.prestamos.getD i default

/-- `GestorPrestamos.realizar_prestamo` (lines 119-133). `libro` is a
reference into the book heap; `now1`/`now2` are the two `datetime.now()`
readings taken by `Prestamo.__init__`. Returns the updated state and the
result: `none` models Python's `return None` on an unavailable book
(BookUnavailable); `some i` is the reference to the freshly appended loan.
The notification send (line 130) returns a `Bool` that the source discards. -/
def realizar_prestamo (s : LibState) (libro : Nat) (usuario : Usuario)
    (now1 now2 : Int) : LibState × Option Nat :=
  let b := libroAt s libro
  if b.disponible = false then
    (s, none)
  else
    let books' := s.books.set libro { b with disponible := false }
    let prestamo := Prestamo.init libro usuario now1 now2
    let _enviado := s.gestor.notificador.enviar
      (String.append (String.append "Has prestado " b.titulo)
        ". Fecha de devolucion: ")
      usuario.nombre
    ({ books := books',
       gestor := { s.gestor with prestamos := s.gestor.prestamos ++ [prestamo] } },
     some s.gestor.prestamos.length)

/-- The observable outcome reported by `devolver_libro`: the source signals
these by printing (line 138: already returned; line 145: overdue days and
fine; line 147: on time). -/
inductive DevolucionResult where
  | alreadyReturned
  | onTime
  | overdue (dias_retraso : Int) (multa : Int)
deriving Repr, DecidableEq, Inhabited

/-- Whether the result reports an overdue return with a fine. -/
def DevolucionResult.isOverdue : DevolucionResult → Bool
  | .overdue _ _ => true
  | _ => false

/-- `GestorPrestamos.devolver_libro` (lines 135-151). `l` is a reference to
a loan in the manager's list; `fecha_actual` is the single `datetime.now()`
reading (line 141). `dias_retraso` is `(fecha_actual - fecha_devolucion).days`,
i.e. floor division of the elapsed seconds by a day. On the early return
(loan already returned, line 139) nothing is mutated; otherwise `devuelto`
and the book's `disponible` are set (lines 149-150). -/
def devolver_libro (s : LibState) (l : Nat) (fecha_actual : Int) :
    LibState × DevolucionResult :=
  let p := prestamoAt s l
  if p.devuelto then
    (s, .alreadyReturned)
  else
    let res : DevolucionResult :=
      if p.fecha_devolucion < fecha_actual then
        let dias_retraso := (fecha_actual - p.fecha_devolucion).fdiv secondsPerDay
        .overdue dias_retraso (s.gestor.calculadora_multa.calcular dias_retraso)
      else
        .onTime
    let prestamos' := s.gestor.prestamos.set l { p with devuelto := true }
    let books' := s.books.set p.libroId
      { libroAt s p.libroId with disponible := true }
    ({ books := books',
       gestor := { s.gestor with prestamos := prestamos' } },
     res)

/-! ## Helper lemmas about heap reads (`List.getD`) after updates -/

theorem getD_set_self {α : Type} (l : List α) (i : Nat) (a d : α)
    (h : i < l.length) : (l.set i a).getD i d = a := by
  rw [List.getD_eq_getElem _ _ (by simpa using h), List.getElem_set_self]

theorem getD_set_of_ne {α : Type} (l : List α) {i j : Nat} (a d : α)
    (h : i ≠ j) : (l.set i a).getD j d = l.getD j d := by
  by_cases hj : j < l.length
  · rw [List.getD_eq_getElem _ _ (by simpa using hj), List.getElem_set_ne h,
      List.getD_eq_getElem _ _ hj]
  · rw [List.getD_eq_default _ _ (by simpa using Nat.le_of_not_lt hj),
      List.getD_eq_default _ _ (Nat.le_of_not_lt hj)]

theorem getD_concat_length {α : Type} (l : List α) (a d : α) :
    (l ++ [a]).getD l.length d = a := by
  rw [List.getD_append_right _ _ _ _ (Nat.le_refl _), Nat.sub_self]
  rfl

/-! ## Concrete demonstration data (mirrors `main`, lines 160-167) -/

def libroDemo : Libro := Libro.init "1984" "George Orwell" "978-0-452-28423-4"

def usuarioDemo : Usuario := { nombre := "Ana Garcia", id_usuario := "U001" }

/-- A manager state over one available book, no loans yet. -/
def stateDemo : LibState :=
  { books := [libroDemo],
    gestor := { calculadora_multa := .multaEstandar,
                notificador := .notificadorEmail,
                prestamos := [] } }

/-- `stateDemo` after a successful checkout of book 0 at time 0. -/
def stateDemo1 : LibState := (realizar_prestamo stateDemo 0 usuarioDemo 0 0).1

/-! ## C1: successful checkout -/

/-- C1: for every book reference `libro` with `disponible = true` and every
borrower, `realizar_prestamo` succeeds: it returns the reference to a fresh
loan, sets the book's `disponible` to `false`, appends the loan (which
references the book and the borrower and has `devuelto = false`) to the
manager's loan list. -/
theorem realizar_prestamo_success (s : LibState) (libro : Nat)
    (usuario : Usuario) (now1 now2 : Int) (hb : libro < s.books.length)
    (hd : (libroAt s libro).disponible = true) :
    (realizar_prestamo s libro usuario now1 now2).2 =
        some s.gestor.prestamos.length ∧
    (libroAt (realizar_prestamo s libro usuario now1 now2).1 libro).disponible
        = false ∧
    (realizar_prestamo s libro usuario now1 now2).1.gestor.prestamos =
        s.gestor.prestamos ++ [Prestamo.init libro usuario now1 now2] ∧
    prestamoAt (realizar_prestamo s libro usuario now1 now2).1
        s.gestor.prestamos.length = Prestamo.init libro usuario now1 now2 ∧
    (Prestamo.init libro usuario now1 now2).libroId = libro ∧
    (Prestamo.init libro usuario now1 now2).usuario = usuario ∧
    (Prestamo.init libro usuario now1 now2).devuelto = false := by
  have hcond : ¬((libroAt s libro).disponible = false) := by
    rw [hd]; decide
  refine ⟨?_, ?_, ?_, ?_, rfl, rfl, rfl⟩
  · simp only [realizar_prestamo, if_neg hcond]
  · simp only [realizar_prestamo, if_neg hcond]
    simp only [libroAt]
    rw [getD_set_self _ _ _ _ hb]
  · simp only [realizar_prestamo, if_neg hcond]
  · simp only [realizar_prestamo, if_neg hcond]
    simp only [prestamoAt]
    exact getD_concat_length _ _ _

theorem realizar_prestamo_success_witness :
    0 < stateDemo.books.length ∧ (libroAt stateDemo 0).disponible = true ∧
    ((realizar_prestamo stateDemo 0 usuarioDemo 0 0).2 = some 0 ∧
     (libroAt stateDemo1 0).disponible = false ∧
     stateDemo1.gestor.prestamos = [] ++ [Prestamo.init 0 usuarioDemo 0 0] ∧
     prestamoAt stateDemo1 0 = Prestamo.init 0 usuarioDemo 0 0 ∧
     (Prestamo.init 0 usuarioDemo 0 0).libroId = 0 ∧
     (Prestamo.init 0 usuarioDemo 0 0).usuario = usuarioDemo ∧
     (Prestamo.init 0 usuarioDemo 0 0).devuelto = false) :=
  ⟨by decide, by decide,
    realizar_prestamo_success stateDemo 0 usuarioDemo 0 0 (by decide) (by decide)⟩

/-! ## C2: checkout of an unavailable book -/

/-- C2: for every book reference with `disponible = false`,
`realizar_prestamo` returns `none` (the BookUnavailable signal, Python's
`return None`) and the whole state — the book heap, the manager's loan list
and every existing loan — is returned unchanged. -/
theorem realizar_prestamo_no_disponible (s : LibState) (libro : Nat)
    (usuario : Usuario) (now1 now2 : Int)
    (hd : (libroAt s libro).disponible = false) :
    realizar_prestamo s libro usuario now1 now2 = (s, none) := by
  simp [realizar_prestamo, hd]

theorem realizar_prestamo_no_disponible_witness :
    (libroAt stateDemo1 0).disponible = false ∧
    realizar_prestamo stateDemo1 0 usuarioDemo 5 5 = (stateDemo1, none) :=
  ⟨by decide,
    realizar_prestamo_no_disponible stateDemo1 0 usuarioDemo 5 5 (by decide)⟩

/-! ## C3: returning an already-returned loan -/

/-- C3: for every loan reference whose loan has `devuelto = true`,
`devolver_libro` reports AlreadyReturned and the whole state — the loan,
its book, and the manager's loan list — is returned unchanged. -/
theorem devolver_libro_ya_devuelto (s : LibState) (l : Nat) (now : Int)
    (hd : (prestamoAt s l).devuelto = true) :
    devolver_libro s l now = (s, .alreadyReturned) := by
  simp [devolver_libro, hd]

/-- `stateDemo1` after returning loan 0 on time (at time 0). -/
def stateDemo2 : LibState := (devolver_libro stateDemo1 0 0).1

theorem devolver_libro_ya_devuelto_witness :
    (prestamoAt stateDemo2 0).devuelto = true ∧
    devolver_libro stateDemo2 0 7 = (stateDemo2, .alreadyReturned) :=
  ⟨by decide, devolver_libro_ya_devuelto stateDemo2 0 7 (by decide)⟩

/-! ## C4: a successful return closes the loan and frees the book -/

/-- C4: for every loan reference `l` (valid, with a valid book reference)
whose loan has `devuelto = false`, `devolver_libro` sets the loan's
`devuelto` to `true` and its book's `disponible` to `true`; this holds for
every return time `now`, i.e. in the on-time and the overdue case alike. -/
theorem devolver_libro_marks_returned (s : LibState) (l : Nat) (now : Int)
    (hl : l < s.gestor.prestamos.length)
    (hb : (prestamoAt s l).libroId < s.books.length)
    (hd : (prestamoAt s l).devuelto = false) :
    (prestamoAt (devolver_libro s l now).1 l).devuelto = true ∧
    (libroAt (devolver_libro s l now).1 (prestamoAt s l).libroId).disponible
      = true := by
  have hcond : ¬((prestamoAt s l).devuelto = true) := by rw [hd]; decide
  constructor
  · simp only [devolver_libro, if_neg (by rw [hd]; decide :
      ¬(prestamoAt s l).devuelto = true)]
    simp only [prestamoAt]
    rw [getD_set_self _ _ _ _ hl]
  · simp only [devolver_libro, if_neg hcond]
    simp only [libroAt]
    rw [getD_set_self _ _ _ _ hb]

theorem devolver_libro_marks_returned_witness :
    0 < stateDemo1.gestor.prestamos.length ∧
    (prestamoAt stateDemo1 0).libroId < stateDemo1.books.length ∧
    (prestamoAt stateDemo1 0).devuelto = false ∧
    ((prestamoAt (devolver_libro stateDemo1 0 0).1 0).devuelto = true ∧
     (libroAt (devolver_libro stateDemo1 0 0).1
        (prestamoAt stateDemo1 0).libroId).disponible = true) ∧
    ((prestamoAt (devolver_libro stateDemo1 0 99999999).1 0).devuelto = true ∧
     (libroAt (devolver_libro stateDemo1 0 99999999).1
        (prestamoAt stateDemo1 0).libroId).disponible = true) :=
  ⟨by decide, by decide, by decide,
    devolver_libro_marks_returned stateDemo1 0 0
      (by decide) (by decide) (by decide),
    devolver_libro_marks_returned stateDemo1 0 99999999
      (by decide) (by decide) (by decide)⟩

/-! ## C5: a fine is computed exactly when the return is strictly late -/

/-- C5: for every unreturned loan, `devolver_libro` reports an overdue
result (and hence computes a fine) exactly when the return time is strictly
after the loan's `fecha_devolucion`; in particular a return exactly at the
due time is reported on time, because the source compares with strict `>`. -/
theorem devolver_libro_overdue_iff (s : LibState) (l : Nat) (now : Int)
    (hd : (prestamoAt s l).devuelto = false) :
    (((devolver_libro s l now).2).isOverdue = true ↔
        (prestamoAt s l).fecha_devolucion < now) ∧
    (now = (prestamoAt s l).fecha_devolucion →
        (devolver_libro s l now).2 = .onTime) := by
  have hcond : ¬((prestamoAt s l).devuelto = true) := by rw [hd]; decide
  constructor
  · by_cases hlt : (prestamoAt s l).fecha_devolucion < now
    · simp [devolver_libro, if_neg hcond, hlt, DevolucionResult.isOverdue]
    · simp [devolver_libro, if_neg hcond, hlt, DevolucionResult.isOverdue]
  · intro hnow
    have hlt : ¬((prestamoAt s l).fecha_devolucion < now) := by
      rw [hnow]; exact lt_irrefl _
    simp [devolver_libro, if_neg hcond, hlt]

theorem devolver_libro_overdue_iff_witness :
    (prestamoAt stateDemo1 0).devuelto = false ∧
    (((devolver_libro stateDemo1 0 1209600).2).isOverdue = true ↔
        (prestamoAt stateDemo1 0).fecha_devolucion < 1209600) ∧
    (1209600 = (prestamoAt stateDemo1 0).fecha_devolucion →
        (devolver_libro stateDemo1 0 1209600).2 = .onTime) :=
  ⟨by decide, devolver_libro_overdue_iff stateDemo1 0 1209600 (by decide)⟩

/-! ## C6: the overdue-day count and the reported fine -/

/-- C6: for every unreturned loan returned strictly after its due time,
the reported result is `overdue d m` where `d` is the floor of the elapsed
time past due in whole days (Python `timedelta.days`) and `m` is the
injected fine policy's `calcular` applied to `d`. -/
theorem devolver_libro_overdue_fine (s : LibState) (l : Nat) (now : Int)
    (hd : (prestamoAt s l).devuelto = false)
    (hlt : (prestamoAt s l).fecha_devolucion < now) :
    (devolver_libro s l now).2 =
      .overdue ((now - (prestamoAt s l).fecha_devolucion).fdiv secondsPerDay)
        (s.gestor.calculadora_multa.calcular
          ((now - (prestamoAt s l).fecha_devolucion).fdiv secondsPerDay)) := by
  have hcond : ¬((prestamoAt s l).devuelto = true) := by rw [hd]; decide
  simp [devolver_libro, if_neg hcond, hlt]

theorem devolver_libro_overdue_fine_witness :
    (prestamoAt stateDemo1 0).devuelto = false ∧
    (prestamoAt stateDemo1 0).fecha_devolucion < 1209600 + 3 * 86400 + 1 ∧
    (devolver_libro stateDemo1 0 (1209600 + 3 * 86400 + 1)).2 =
      .overdue
        (((1209600 + 3 * 86400 + 1 : Int) -
            (prestamoAt stateDemo1 0).fecha_devolucion).fdiv secondsPerDay)
        (stateDemo1.gestor.calculadora_multa.calcular
          (((1209600 + 3 * 86400 + 1 : Int) -
              (prestamoAt stateDemo1 0).fecha_devolucion).fdiv secondsPerDay)) :=
  ⟨by decide, by decide,
    devolver_libro_overdue_fine stateDemo1 0 (1209600 + 3 * 86400 + 1)
      (by decide) (by decide)⟩

/-! ## C7: the three fine policies -/

/-- C7: for every non-negative day count `d`, the standard policy charges
`d * 10`, the student policy `d * 5`, and the VIP policy `0`; the concrete
values of the spec (`30`, `15`, `0` at `d = 3`, and `0` for all three at
`d = 0`) are instances. -/
theorem calcular_policies (d : Int) (_hd : 0 ≤ d) :
    CalculadoraMulta.multaEstandar.calcular d = d * 10 ∧
    CalculadoraMulta.multaEstudiante.calcular d = d * 5 ∧
    CalculadoraMulta.multaVIP.calcular d = 0 :=
  ⟨rfl, rfl, rfl⟩

theorem calcular_policies_witness :
    ((0 : Int) ≤ 3 ∧
      (CalculadoraMulta.multaEstandar.calcular 3 = 3 * 10 ∧
       CalculadoraMulta.multaEstudiante.calcular 3 = 3 * 5 ∧
       CalculadoraMulta.multaVIP.calcular 3 = 0)) ∧
    ((0 : Int) ≤ 0 ∧
      (CalculadoraMulta.multaEstandar.calcular 0 = 0 * 10 ∧
       CalculadoraMulta.multaEstudiante.calcular 0 = 0 * 5 ∧
       CalculadoraMulta.multaVIP.calcular 0 = 0)) :=
  ⟨⟨by decide, calcular_policies 3 (by decide)⟩,
   ⟨by decide, calcular_policies 0 (by decide)⟩⟩

/-! ## C8: due time of a freshly created loan

`Prestamo.__init__` reads the clock twice (`datetime.now()` on line 31 for
`fecha_prestamo` and again on line 32 for `fecha_devolucion`), so
`fecha_devolucion` is the *second* reading plus 14 days. When time advances
between the two readings, `fecha_devolucion ≠ fecha_prestamo + 14 days`. -/

/-- Counterexample to C8 as stated: a successful checkout during which the
clock advances by one second between the two readings (`now1 = 0`,
`now2 = 1`) produces a loan whose `fecha_devolucion` is not its
`fecha_prestamo` plus exactly 14 days. -/
theorem prestamo_due_time_counterexample :
    (realizar_prestamo stateDemo 0 usuarioDemo 0 1).2 = some 0 ∧
    ¬((prestamoAt (realizar_prestamo stateDemo 0 usuarioDemo 0 1).1 0
          ).fecha_devolucion =
        (prestamoAt (realizar_prestamo stateDemo 0 usuarioDemo 0 1).1 0
          ).fecha_prestamo + 14 * secondsPerDay) := by
  decide

/-- C8 (amended): for every successful checkout, the created loan has
`fecha_prestamo` equal to the first clock reading and `fecha_devolucion`
equal to the *second* clock reading plus exactly 14 days; whenever the two
readings coincide (no time passes inside the constructor),
`fecha_devolucion = fecha_prestamo + 14 days` exactly. -/
theorem prestamo_due_time (s : LibState) (libro : Nat) (usuario : Usuario)
    (now1 now2 : Int) (hd : (libroAt s libro).disponible = true) :
    (prestamoAt (realizar_prestamo s libro usuario now1 now2).1
        s.gestor.prestamos.length).fecha_prestamo = now1 ∧
    (prestamoAt (realizar_prestamo s libro usuario now1 now2).1
        s.gestor.prestamos.length).fecha_devolucion =
      now2 + 14 * secondsPerDay ∧
    (now1 = now2 →
      (prestamoAt (realizar_prestamo s libro usuario now1 now2).1
          s.gestor.prestamos.length).fecha_devolucion =
        (prestamoAt (realizar_prestamo s libro usuario now1 now2).1
            s.gestor.prestamos.length).fecha_prestamo +
          14 * secondsPerDay) := by
  have hcond : ¬((libroAt s libro).disponible = false) := by rw [hd]; decide
  have hp : prestamoAt (realizar_prestamo s libro usuario now1 now2).1
      s.gestor.prestamos.length = Prestamo.init libro usuario now1 now2 := by
    simp only [realizar_prestamo, if_neg hcond]
    simp only [prestamoAt]
    exact getD_concat_length _ _ _
  rw [hp]
  refine ⟨rfl, rfl, ?_⟩
  intro h
  simp [Prestamo.init, h]

theorem prestamo_due_time_witness :
    (libroAt stateDemo 0).disponible = true ∧
    ((prestamoAt (realizar_prestamo stateDemo 0 usuarioDemo 4 4).1
        0).fecha_prestamo = 4 ∧
     (prestamoAt (realizar_prestamo stateDemo 0 usuarioDemo 4 4).1
        0).fecha_devolucion = 4 + 14 * secondsPerDay ∧
     ((4 : Int) = 4 →
       (prestamoAt (realizar_prestamo stateDemo 0 usuarioDemo 4 4).1
          0).fecha_devolucion =
         (prestamoAt (realizar_prestamo stateDemo 0 usuarioDemo 4 4).1
            0).fecha_prestamo + 14 * secondsPerDay)) :=
  ⟨by decide, prestamo_due_time stateDemo 0 usuarioDemo 4 4 (by decide)⟩

/-! ## C10: the frame of a successful return -/

/-- C10: a successful `devolver_libro` on loan `l` mutates only that loan's
`devuelto` flag and its book's `disponible` flag. The loan list keeps its
length (the loan stays in the list), loan `l` keeps every other field
(book reference, borrower, `fecha_prestamo`, `fecha_devolucion`), every
other loan and every other book is untouched, the touched book keeps its
other fields, and the manager's injected policy and channel are unchanged. -/
theorem devolver_libro_frame (s : LibState) (l : Nat) (now : Int)
    (hl : l < s.gestor.prestamos.length)
    (hb : (prestamoAt s l).libroId < s.books.length)
    (hd : (prestamoAt s l).devuelto = false) :
    (devolver_libro s l now).1.gestor.prestamos.length =
        s.gestor.prestamos.length ∧
    prestamoAt (devolver_libro s l now).1 l =
        { prestamoAt s l with devuelto := true } ∧
    (∀ j, j ≠ l → prestamoAt (devolver_libro s l now).1 j = prestamoAt s j) ∧
    (∀ i, i ≠ (prestamoAt s l).libroId →
        libroAt (devolver_libro s l now).1 i = libroAt s i) ∧
    libroAt (devolver_libro s l now).1 (prestamoAt s l).libroId =
        { libroAt s (prestamoAt s l).libroId with disponible := true } ∧
    (devolver_libro s l now).1.books.length = s.books.length ∧
    (devolver_libro s l now).1.gestor.calculadora_multa =
        s.gestor.calculadora_multa ∧
    (devolver_libro s l now).1.gestor.notificador = s.gestor.notificador := by
  have hcond : ¬((prestamoAt s l).devuelto = true) := by rw [hd]; decide
  refine ⟨?_, ?_, ?_, ?_, ?_, ?_, ?_, ?_⟩
  · simp [devolver_libro, if_neg hcond]
  · simp only [devolver_libro, if_neg hcond]
    simp only [prestamoAt]
    rw [getD_set_self _ _ _ _ hl]
  · intro j hj
    simp only [devolver_libro, if_neg hcond]
    simp only [prestamoAt]
    rw [getD_set_of_ne _ _ _ (fun h => hj h.symm)]
  · intro i hi
    simp only [devolver_libro, if_neg hcond]
    simp only [libroAt]
    rw [getD_set_of_ne _ _ _ (fun h => hi h.symm)]
  · simp only [devolver_libro, if_neg hcond]
    simp only [libroAt]
    rw [getD_set_self _ _ _ _ hb]
  · simp [devolver_libro, if_neg hcond]
  · simp [devolver_libro, if_neg hcond]
  · simp [devolver_libro, if_neg hcond]

theorem devolver_libro_frame_witness :
    0 < stateDemo1.gestor.prestamos.length ∧
    (prestamoAt stateDemo1 0).libroId < stateDemo1.books.length ∧
    (prestamoAt stateDemo1 0).devuelto = false ∧
    ((devolver_libro stateDemo1 0 3).1.gestor.prestamos.length =
        stateDemo1.gestor.prestamos.length ∧
     prestamoAt (devolver_libro stateDemo1 0 3).1 0 =
        { prestamoAt stateDemo1 0 with devuelto := true } ∧
     (∀ j, j ≠ 0 →
        prestamoAt (devolver_libro stateDemo1 0 3).1 j = prestamoAt stateDemo1 j) ∧
     (∀ i, i ≠ (prestamoAt stateDemo1 0).libroId →
        libroAt (devolver_libro stateDemo1 0 3).1 i = libroAt stateDemo1 i) ∧
     libroAt (devolver_libro stateDemo1 0 3).1 (prestamoAt stateDemo1 0).libroId =
        { libroAt stateDemo1 (prestamoAt stateDemo1 0).libroId with
            disponible := true } ∧
     (devolver_libro stateDemo1 0 3).1.books.length = stateDemo1.books.length ∧
     (devolver_libro stateDemo1 0 3).1.gestor.calculadora_multa =
        stateDemo1.gestor.calculadora_multa ∧
     (devolver_libro stateDemo1 0 3).1.gestor.notificador =
        stateDemo1.gestor.notificador) :=
  ⟨by decide, by decide, by decide,
    devolver_libro_frame stateDemo1 0 3 (by decide) (by decide) (by decide)⟩

/-! ## C9: the availability invariant over all reachable states -/

/-- The availability invariant, strengthened with the auxiliary facts
needed for its preservation: (1) every loan's book reference is a valid
heap index; (2) every unreturned loan's book is unavailable; (3) no two
distinct unreturned loans reference the same book. -/
def Inv (s : LibState) : Prop :=
  (∀ i, i < s.gestor.prestamos.length →
      (prestamoAt s i).libroId < s.books.length) ∧
  (∀ i, i < s.gestor.prestamos.length → (prestamoAt s i).devuelto = false →
      (libroAt s (prestamoAt s i).libroId).disponible = false) ∧
  (∀ i j, i < s.gestor.prestamos.length → j < s.gestor.prestamos.length →
      i ≠ j → (prestamoAt s i).devuelto = false →
      (prestamoAt s j).devuelto = false →
      (prestamoAt s i).libroId ≠ (prestamoAt s j).libroId)

/-- One call to either manager operation, with a valid reference (in Python
the caller always passes an actual object, so references are never
dangling). -/
inductive Step : LibState → LibState → Prop where
  | checkout (s : LibState) (libro : Nat) (usuario : Usuario)
      (now1 now2 : Int) (hb : libro < s.books.length) :
      Step s (realizar_prestamo s libro usuario now1 now2).1
  | devolucion (s : LibState) (l : Nat) (now : Int)
      (hl : l < s.gestor.prestamos.length) :
      Step s (devolver_libro s l now).1

/-- A freshly constructed manager (`prestamos = []`, lines 114-117) over an
arbitrary heap of caller-created books. -/
def initState (books : List Libro) (c : CalculadoraMulta)
    (n : Notificador) : LibState :=
  { books := books,
    gestor := { calculadora_multa := c, notificador := n, prestamos := [] } }

/-- States reachable from a fresh manager by checkout/return calls. -/
inductive Reachable : LibState → Prop where
  | base (books : List Libro) (c : CalculadoraMulta) (n : Notificador) :
      Reachable (initState books c n)
  | step {s s' : LibState} : Reachable s → Step s s' → Reachable s'

theorem inv_checkout (s : LibState) (libro : Nat) (usuario : Usuario)
    (now1 now2 : Int) (hb : libro < s.books.length) (hInv : Inv s) :
    Inv (realizar_prestamo s libro usuario now1 now2).1 := by
  by_cases hdisp : (libroAt s libro).disponible = false
  · have hid : (realizar_prestamo s libro usuario now1 now2).1 = s := by
      simp [realizar_prestamo, hdisp]
    rw [hid]; exact hInv
  · have hd : (libroAt s libro).disponible = true := by
      cases h : (libroAt s libro).disponible
      · exact absurd h hdisp
      · rfl
    obtain ⟨h1, h2, h3⟩ := hInv
    have hps : (realizar_prestamo s libro usuario now1 now2).1.gestor.prestamos
        = s.gestor.prestamos ++ [Prestamo.init libro usuario now1 now2] := by
      simp only [realizar_prestamo, if_neg hdisp]
    have hbs : (realizar_prestamo s libro usuario now1 now2).1.books
        = s.books.set libro { libroAt s libro with disponible := false } := by
      simp only [realizar_prestamo, if_neg hdisp]
    have hlen : (realizar_prestamo s libro usuario now1 now2).1.gestor.prestamos.length
        = s.gestor.prestamos.length + 1 := by
      rw [hps]; simp
    have hbl : (realizar_prestamo s libro usuario now1 now2).1.books.length
        = s.books.length := by
      rw [hbs]; exact List.length_set _ _ _
    have hat_lt : ∀ i, i < s.gestor.prestamos.length →
        prestamoAt (realizar_prestamo s libro usuario now1 now2).1 i
          = prestamoAt s i := by
      intro i hi
      show (realizar_prestamo s libro usuario now1 now2).1.gestor.prestamos.getD
          i default = s.gestor.prestamos.getD i default
      rw [hps, List.getD_append _ _ _ _ hi]
    have hat_top : prestamoAt (realizar_prestamo s libro usuario now1 now2).1
        s.gestor.prestamos.length = Prestamo.init libro usuario now1 now2 := by
      show (realizar_prestamo s libro usuario now1 now2).1.gestor.prestamos.getD
          s.gestor.prestamos.length default = _
      rw [hps]; exact getD_concat_length _ _ _
    have hlib_eq : libroAt (realizar_prestamo s libro usuario now1 now2).1 libro
        = { libroAt s libro with disponible := false } := by
      show (realizar_prestamo s libro usuario now1 now2).1.books.getD libro default = _
      rw [hbs]; exact getD_set_self _ _ _ _ hb
    have hlib_ne : ∀ j, j ≠ libro →
        libroAt (realizar_prestamo s libro usuario now1 now2).1 j = libroAt s j := by
      intro j hj
      show (realizar_prestamo s libro usuario now1 now2).1.books.getD j default
          = s.books.getD j default
      rw [hbs]; exact getD_set_of_ne _ _ _ (Ne.symm hj)
    refine ⟨?_, ?_, ?_⟩
    · intro i hi
      rw [hlen] at hi
      rw [hbl]
      rcases Nat.lt_succ_iff_lt_or_eq.mp hi with hi' | hi'
      · rw [hat_lt i hi']; exact h1 i hi'
      · rw [hi', hat_top]; exact hb
    · intro i hi hdev
      rw [hlen] at hi
      rcases Nat.lt_succ_iff_lt_or_eq.mp hi with hi' | hi'
      · rw [hat_lt i hi'] at hdev ⊢
        by_cases hli : (prestamoAt s i).libroId = libro
        · rw [hli, hlib_eq]
        · rw [hlib_ne _ hli]; exact h2 i hi' hdev
      · rw [hi', hat_top]
        show (libroAt (realizar_prestamo s libro usuario now1 now2).1 libro).disponible
            = false
        rw [hlib_eq]
    · intro i j hi hj hij hdi hdj
      rw [hlen] at hi hj
      rcases Nat.lt_succ_iff_lt_or_eq.mp hi with hi' | hi' <;>
        rcases Nat.lt_succ_iff_lt_or_eq.mp hj with hj' | hj'
      · rw [hat_lt i hi'] at hdi ⊢
        rw [hat_lt j hj'] at hdj ⊢
        exact h3 i j hi' hj' hij hdi hdj
      · rw [hat_lt i hi'] at hdi ⊢
        rw [hj', hat_top]
        intro hset
        have hfalse := h2 i hi' hdi
        rw [hset] at hfalse
        show False
        rw [show (Prestamo.init libro usuario now1 now2).libroId = libro from rfl]
          at hfalse
        rw [hd] at hfalse
        cases hfalse
      · rw [hat_lt j hj'] at hdj ⊢
        rw [hi', hat_top]
        intro hset
        have hfalse := h2 j hj' hdj
        rw [← hset] at hfalse
        show False
        rw [show (Prestamo.init libro usuario now1 now2).libroId = libro from rfl]
          at hfalse
        rw [hd] at hfalse
        cases hfalse
      · exact absurd (hi'.trans hj'.symm) hij

theorem inv_devolucion (s : LibState) (l : Nat) (now : Int)
    (hl : l < s.gestor.prestamos.length) (hInv : Inv s) :
    Inv (devolver_libro s l now).1 := by
  by_cases hdev : (prestamoAt s l).devuelto = true
  · have hid : (devolver_libro s l now).1 = s := by
      simp [devolver_libro, hdev]
    rw [hid]; exact hInv
  · have hdev' : (prestamoAt s l).devuelto = false := by
      cases h : (prestamoAt s l).devuelto
      · rfl
      · exact absurd h hdev
    obtain ⟨h1, h2, h3⟩ := hInv
    have hbref : (prestamoAt s l).libroId < s.books.length := h1 l hl
    have hps : (devolver_libro s l now).1.gestor.prestamos
        = s.gestor.prestamos.set l { prestamoAt s l with devuelto := true } := by
      simp only [devolver_libro, if_neg hdev]
    have hbs : (devolver_libro s l now).1.books
        = s.books.set (prestamoAt s l).libroId
            { libroAt s (prestamoAt s l).libroId with disponible := true } := by
      simp only [devolver_libro, if_neg hdev]
    have hlen : (devolver_libro s l now).1.gestor.prestamos.length
        = s.gestor.prestamos.length := by
      rw [hps]; exact List.length_set _ _ _
    have hbl : (devolver_libro s l now).1.books.length = s.books.length := by
      rw [hbs]; exact List.length_set _ _ _
    have hat_l : prestamoAt (devolver_libro s l now).1 l
        = { prestamoAt s l with devuelto := true } := by
      show (devolver_libro s l now).1.gestor.prestamos.getD l default = _
      rw [hps]; exact getD_set_self _ _ _ _ hl
    have hat_ne : ∀ j, j ≠ l →
        prestamoAt (devolver_libro s l now).1 j = prestamoAt s j := by
      intro j hj
      show (devolver_libro s l now).1.gestor.prestamos.getD j default
          = s.gestor.prestamos.getD j default
      rw [hps]; exact getD_set_of_ne _ _ _ (Ne.symm hj)
    have hlib_ne : ∀ j, j ≠ (prestamoAt s l).libroId →
        libroAt (devolver_libro s l now).1 j = libroAt s j := by
      intro j hj
      show (devolver_libro s l now).1.books.getD j default = s.books.getD j default
      rw [hbs]; exact getD_set_of_ne _ _ _ (Ne.symm hj)
    refine ⟨?_, ?_, ?_⟩
    · intro i hi
      rw [hlen] at hi
      rw [hbl]
      by_cases hil : i = l
      · rw [hil, hat_l]
        exact hbref
      · rw [hat_ne i hil]; exact h1 i hi
    · intro i hi hdevi
      rw [hlen] at hi
      by_cases hil : i = l
      · rw [hil, hat_l] at hdevi
        cases hdevi
      · rw [hat_ne i hil] at hdevi ⊢
        have hne : (prestamoAt s i).libroId ≠ (prestamoAt s l).libroId :=
          h3 i l hi hl hil hdevi hdev'
        rw [hlib_ne _ hne]
        exact h2 i hi hdevi
    · intro i j hi hj hij hdi hdj
      rw [hlen] at hi hj
      by_cases hil : i = l
      · rw [hil, hat_l] at hdi
        cases hdi
      · by_cases hjl : j = l
        · rw [hjl, hat_l] at hdj
          cases hdj
        · rw [hat_ne i hil] at hdi ⊢
          rw [hat_ne j hjl] at hdj ⊢
          exact h3 i j hi hj hij hdi hdj

theorem reachable_inv {s : LibState} (h : Reachable s) : Inv s := by
  induction h with
  | base books c n =>
      refine ⟨?_, ?_, ?_⟩
      · intro i hi
        exact absurd hi (by simp [initState, prestamoAt])
      · intro i hi
        exact absurd hi (by simp [initState, prestamoAt])
      · intro i j hi hj
        exact absurd hi (by simp [initState, prestamoAt])
  | step hr hstep ih =>
      cases hstep with
      | checkout libro usuario now1 now2 hb =>
          exact inv_checkout _ libro usuario now1 now2 hb ih
      | devolucion l now hl =>
          exact inv_devolucion _ l now hl ih

/-- C9: in every state reachable from a fresh manager by any sequence of
`realizar_prestamo` and `devolver_libro` calls, every loan in the manager's
list that is not yet returned has an unavailable book: `disponible` is
`false` while any unreturned loan references the book. -/
theorem disponible_invariant (s : LibState) (hs : Reachable s) :
    ∀ p ∈ s.gestor.prestamos, p.devuelto = false →
      (libroAt s p.libroId).disponible = false := by
  intro p hp hdev
  obtain ⟨i, hi, hip⟩ := List.mem_iff_getElem.mp hp
  have hpa : prestamoAt s i = p := by
    show s.gestor.prestamos.getD i default = p
    rw [List.getD_eq_getElem _ _ hi]
    exact hip
  have hres := (reachable_inv hs).2.1 i hi (by rw [hpa]; exact hdev)
  rw [hpa] at hres
  exact hres

theorem disponible_invariant_witness :
    (libroAt stateDemo1 (prestamoAt stateDemo1 0).libroId).disponible = false :=
  disponible_invariant stateDemo1
    (Reachable.step
      (Reachable.base [libroDemo] .multaEstandar .notificadorEmail)
      (Step.checkout stateDemo 0 usuarioDemo 0 0 (by decide)))
    (prestamoAt stateDemo1 0) (by decide) (by decide)

end App
